import Mathlib

/-!
Verification development for the VidAI Studio backend (`src/app.py`):
the asynchronous job-execution and status-tracking subsystem.

The Python source is shallowly embedded: pure helpers become Lean
functions on `String`/`Nat`/`List`; the two background worker pipelines
(`_process_video`, `_download_media`) become trace-producing functions
over an explicit environment that supplies the outcomes of the external
collaborators (yt-dlp, the Gemini API, the filesystem); the job registry
becomes a map from id to record with the dict-update semantics of the
source.  Display-only message strings that the code builds with float
formatting are represented by an inductive type carrying their
construction site and parameters, since no property inspects their
rendered text.
-/

namespace VidAI

/-! ## Basic string helpers mirroring Python primitives -/

/-- Substring scan: does `pat` occur (contiguously) in `hay`? -/
def listContainsSub : List Char → List Char → Bool
  | hay, pat =>
    match hay with
    | [] => pat.isEmpty
    | _ :: rest => pat.isPrefixOf hay || listContainsSub rest pat

/-- Python `pat in hay` substring containment. -/
def containsSub (hay pat : String) : Bool :=
  listContainsSub hay.toList pat.toList

/-- Python `str.lower()` (ASCII case folding; the inputs exercised here
are ASCII). -/
def pyLower (s : String) : String :=
  String.mk (s.toList.map Char.toLower)

/-- Accumulator pass of `pySplit`: `acc` is the current (reversed)
non-whitespace run. -/
def splitWsAux : List Char → List Char → List String
  | [], acc => if acc.isEmpty then [] else [String.mk acc.reverse]
  | c :: cs, acc =>
    if c.isWhitespace then
      (if acc.isEmpty then [] else [String.mk acc.reverse]) ++ splitWsAux cs []
    else splitWsAux cs (c :: acc)

/-- Python `str.split()` with no argument: the maximal non-whitespace
runs, in order (leading/trailing/repeated whitespace yields no empty
tokens). -/
def pySplit (s : String) : List String :=
  splitWsAux s.toList []

/-- Python `str.strip()`: drop leading and trailing whitespace. -/
def pyStrip (s : String) : String :=
  String.mk (((s.toList.dropWhile Char.isWhitespace).reverse.dropWhile
    Char.isWhitespace).reverse)

/-- `len(text.split())` — the whitespace-token count used for
`word_count` in `_process_video`. -/
def wordCount (s : String) : Nat :=
  (pySplit s).length

/-- Python whitespace class `\s` (ASCII part). -/
def isPySpace (c : Char) : Bool :=
  c == ' ' || c == '\t' || c == '\n' || c == '\r' || c == '\x0b' || c == '\x0c'

/-! ## The retry-wait extraction regex

`re.search(r"retry[_ ]?(?:in|delay)?[:\s]*(\d+)", text, re.IGNORECASE)`
from `parse_api_error`.  The search is leftmost-first; at a match
position the engine tries `[_ ]?` greedily (consume first, then empty),
then the alternation `in` / `delay` / empty in that order, then the
class `[:\s]*` greedily — because that class is disjoint from `\d`,
maximal munch needs no backtracking — and finally captures a maximal
nonempty digit run. -/

/-- Case-insensitive character comparison. -/
def charCI (a b : Char) : Bool := a.toLower == b.toLower

/-- Match a literal pattern case-insensitively at the head of the input,
returning the rest on success. -/
def matchCI : List Char → List Char → Option (List Char)
  | [], s => some s
  | _ :: _, [] => none
  | p :: ps, c :: cs => if charCI p c then matchCI ps cs else none

/-- Continuations for `[_ ]?`, in backtracking order. -/
def optUnderscoreSpace (s : List Char) : List (List Char) :=
  match s with
  | c :: cs => if c == '_' || c == ' ' then [cs, s] else [s]
  | [] => [s]

/-- Continuations for `(?:in|delay)?`, in backtracking order. -/
def optInDelay (s : List Char) : List (List Char) :=
  (match matchCI "in".toList s with | some r => [r] | none => []) ++
  (match matchCI "delay".toList s with | some r => [r] | none => []) ++ [s]

/-- Greedy `[:\s]*`. -/
def skipColonSpace (s : List Char) : List Char :=
  s.dropWhile (fun c => c == ':' || isPySpace c)

/-- Try the part of the pattern after the literal `retry` at this
position; returns the captured digit group. -/
def matchAfterRetry (s : List Char) : Option String :=
  (optUnderscoreSpace s).findSome? fun r1 =>
    (optInDelay r1).findSome? fun r2 =>
      let r3 := skipColonSpace r2
      let ds := r3.takeWhile Char.isDigit
      if ds.isEmpty then none else some (String.mk ds)

/-- Leftmost search for the whole pattern; the captured digit group of
the first successful position. -/
def searchRetryWait : List Char → Option String
  | [] => none
  | c :: rest =>
    match matchCI "retry".toList (c :: rest) with
    | some after =>
      match matchAfterRetry after with
      | some d => some d
      | none => searchRetryWait rest
    | none => searchRetryWait rest

/-! ## Error classifier (`parse_api_error`, app.py lines 131–152) -/

/-- `"429" in text or "quota" in text.lower()` -/
def quotaSignal (text : String) : Bool :=
  containsSub text "429" || containsSub (pyLower text) "quota"

/-- `"401" in text or "api_key" in text.lower()` -/
def authSignal (text : String) : Bool :=
  containsSub text "401" || containsSub (pyLower text) "api_key"

/-- `"403" in text or "permission" in text.lower()` -/
def permissionSignal (text : String) : Bool :=
  containsSub text "403" || containsSub (pyLower text) "permission"

/-- `"404" in text or "not found" in text.lower()` -/
def notFoundSignal (text : String) : Bool :=
  containsSub text "404" || containsSub (pyLower text) "not found"

/-- `"safety" in text.lower() or "blocked" in text.lower()` -/
def safetySignal (text : String) : Bool :=
  containsSub (pyLower text) "safety" || containsSub (pyLower text) "blocked"

/-- f-string `f"Rate limit reached for {model_id}. Wait ~{wait}s or switch model."` -/
def rateLimitMsg (model_id wait : String) : String :=
  "Rate limit reached for " ++ model_id ++ ". Wait ~" ++ wait ++ "s or switch model."

def invalidKeyMsg : String := "Invalid API Key. Check your key in Settings."

def permissionMsg : String :=
  "Permission denied. Your API key may not have access to this model."

/-- f-string `f"Model '{model_id}' not found. Select a different model."` -/
def modelNotFoundMsg (model_id : String) : String :=
  "Model " ++ "'" ++ model_id ++ "'" ++ " not found. Select a different model."

def safetyMsg : String := "Content blocked by safety filters. Try a different video."

/-- `parse_api_error(exc, model_id)`: convert a raw Gemini exception
text into a short user-facing string (app.py lines 131–152).  The final
branch is `text[:200] if len(text) > 200 else text`. -/
def parse_api_error (exc : String) (model_id : String) : String :=
  if quotaSignal exc then
    rateLimitMsg model_id ((searchRetryWait exc.toList).getD "60")
  else if authSignal exc then invalidKeyMsg
  else if permissionSignal exc then permissionMsg
  else if notFoundSignal exc then modelNotFoundMsg model_id
  else if safetySignal exc then safetyMsg
  else if 200 < exc.length then String.mk (exc.toList.take 200) else exc

/-- The classifier as the specification words it (§4.4): rules checked
in order, first match wins; the fallback is the raw message truncated to
the fixed maximum of 200 characters.  This definition follows the
spec's text and is compared with `parse_api_error`, which is translated
from the source. -/
def specErrorClassifier (raw : String) (model_id : String) : String :=
  if quotaSignal raw then
    rateLimitMsg model_id ((searchRetryWait raw.toList).getD "60")
  else if authSignal raw then invalidKeyMsg
  else if permissionSignal raw then permissionMsg
  else if notFoundSignal raw then modelNotFoundMsg model_id
  else if safetySignal raw then safetyMsg
  else String.mk (raw.toList.take 200)

/-! ## Platform detection (`detect_platform`, app.py lines 102–114) -/

/-- The ordered `(domain, name)` list of the source's for-loop. -/
def PLATFORM_DOMAINS : List (String × String) :=
  [("facebook.com", "facebook"), ("fb.watch", "facebook"), ("fb.com", "facebook"),
   ("youtube.com", "youtube"), ("youtu.be", "youtube"),
   ("instagram.com", "instagram"),
   ("tiktok.com", "tiktok"),
   ("twitter.com", "twitter"), ("x.com", "twitter")]

/-- The source's for-loop with early return over the domain list. -/
def findPlatform : List (String × String) → String → String
  | [], _ => "other"
  | (domain, name) :: rest, u =>
    if containsSub u domain then name else findPlatform rest u

/-- `detect_platform(url)`: lowercase the URL, return the name paired
with the first domain that occurs in it as a substring, else "other". -/
def detect_platform (url : String) : String :=
  findPlatform PLATFORM_DOMAINS (pyLower url)

/-- Platform detection as the claim words it: the name paired with the
first list entry whose domain string occurs anywhere in the lowercased
URL, and "other" when none occurs. -/
def detectPlatformSpec (url : String) : String :=
  match PLATFORM_DOMAINS.find? (fun p => containsSub (pyLower url) p.1) with
  | some p => p.2
  | none => "other"

/-! ## Job-record data model

`message` values are display-only strings the code builds at fixed call
sites (some with float formatting of a file size); no property inspects
their rendered text, so they are represented by their construction site
and parameters.  Likewise each distinct `error` production of the source
is a constructor carrying its parameters; `apiError` carries the
already-rendered output of `parse_api_error`. -/

/-- One constructor per message literal in `src/app.py`. -/
inductive Msg
  /-- `"Starting…"` (generate route, line 448) -/
  | starting
  /-- `"Starting download…"` (download route, line 522) -/
  | startingDownload
  /-- `"Downloading audio from video..."` -/
  | downloadingAudio
  /-- `"Uploading audio to AI engine..."` -/
  | uploadingAudio
  /-- `"AI is analyzing the audio..."` -/
  | processingAudio
  /-- `"Generating content with AI..."` -/
  | generating
  /-- `"Model unavailable, trying fallback (Gemini 1.0 Pro)..."` -/
  | fallbackNotice
  /-- `"Content generated successfully!"` -/
  | doneSuccess
  /-- f-string `f"Downloading {fmt} from video..."` -/
  | downloadingFmt (fmt : String)
  /-- f-string `f"{fmt.capitalize()} ready to download ({size_mb:.1f} MB)"`;
  carries the format selector and the raw size in bytes. -/
  | downloadReady (fmt : String) (sizeBytes : Nat)
deriving DecidableEq, Repr

/-- One constructor per `error=` production in `src/app.py`. -/
inductive JobError
  /-- `"Could not download audio. Check if the video is public."` -/
  | couldNotDownload
  /-- f-string `f"Audio too large ({size_mb:.1f} MB). Max {MAX_AUDIO_SIZE_MB} MB."`;
  carries the raw size in bytes. -/
  | audioTooLarge (sizeBytes : Nat)
  /-- `"AI failed to process the audio file."` -/
  | aiProcessFailed
  /-- `parse_api_error(exc, model_id)` output, already rendered. -/
  | apiError (s : String)
  /-- `"Download failed. The video may be private or unavailable."` -/
  | dlPrivate
  /-- f-string `f"Download failed: {str(exc)[:150]}"`; carries the
  truncated exception text. -/
  | dlFail (excText150 : String)
deriving DecidableEq, Repr

/-- `MAX_AUDIO_SIZE_MB = 20` (app.py line 41). -/
def MAX_AUDIO_SIZE_MB : Nat := 20

/-- `MAX_HISTORY_ITEMS = 50` (app.py line 42). -/
def MAX_HISTORY_ITEMS : Nat := 50

/-- A job record: the dict stored in `_jobs`.  The AI-generation route
creates records without the `download_*` keys; a missing key is `none`
here.  `download_size_mb` stores the raw byte size (the code stores the
same quantity as megabytes rounded to one decimal; no claim inspects the
numeric rendering). -/
structure JobRecord where
  status : String
  step : String
  progress : Nat
  message : Msg
  result : Option String
  error : Option JobError
  video_title : Option String
  url : String
  platform : String
  download_path : Option String := none
  download_filename : Option String := none
  download_size_mb : Option Nat := none
deriving DecidableEq, Repr

/-- A partial-field update, as passed to `_update_job(job_id, **fields)`.
`none` means the keyword was absent.  The source never assigns `None`
to a nullable field through `_update_job`, so presence always means a
real value. -/
structure JobUpdate where
  status : Option String := none
  step : Option String := none
  progress : Option Nat := none
  message : Option Msg := none
  result : Option String := none
  error : Option JobError := none
  video_title : Option String := none
  download_path : Option String := none
  download_filename : Option String := none
  download_size_mb : Option Nat := none
deriving DecidableEq, Repr

/-- `dict.update(fields)` on one record: each present keyword replaces
the field, absent keywords leave it unchanged (`url`/`platform` are
never passed). -/
def applyUpdate (r : JobRecord) (u : JobUpdate) : JobRecord :=
  { status := u.status.getD r.status
    step := u.step.getD r.step
    progress := u.progress.getD r.progress
    message := u.message.getD r.message
    result := (u.result.map some).getD r.result
    error := (u.error.map some).getD r.error
    video_title := (u.video_title.map some).getD r.video_title
    url := r.url
    platform := r.platform
    download_path := (u.download_path.map some).getD r.download_path
    download_filename := (u.download_filename.map some).getD r.download_filename
    download_size_mb := (u.download_size_mb.map some).getD r.download_size_mb }

/-! ## Job registry (`_jobs` dict guarded by `_jobs_lock`) -/

/-- The `_jobs` mapping. -/
def JobMap := String → Option JobRecord

/-- Python `_jobs[job_id] = record`: unconditional dict assignment —
adds the key or silently replaces an existing record. -/
def dictAssign (m : JobMap) (job_id : String) (r : JobRecord) : JobMap :=
  fun k => if k = job_id then some r else m k

/-- `_update_job(job_id, **fields)` (app.py lines 165–168): under the
lock, if the id is present apply the partial update, otherwise do
nothing.  There is no check of the record's current status. -/
def update_job (m : JobMap) (job_id : String) (u : JobUpdate) : JobMap :=
  fun k => if k = job_id then (m job_id).map (fun r => applyUpdate r u) else m k

/-- The initial record the `generate` route stores (app.py lines 443–454). -/
def initAIRecord (url : String) : JobRecord :=
  { status := "running", step := "queued", progress := 0
    message := .starting, result := none, error := none
    video_title := none, url := url, platform := detect_platform url }

/-- The initial record the `start_download` route stores (app.py lines
517–531); the `download_*` keys are present and `None`. -/
def initDLRecord (url : String) : JobRecord :=
  { status := "running", step := "queued", progress := 0
    message := .startingDownload, result := none, error := none
    video_title := none, url := url, platform := detect_platform url
    download_path := none, download_filename := none, download_size_mb := none }

/-- `generate` route job creation: `_jobs[job_id] = {...}` with no
presence check. -/
def generate_create (m : JobMap) (job_id url : String) : JobMap :=
  dictAssign m job_id (initAIRecord url)

/-- `start_download` route job creation: `_jobs[job_id] = {...}` with no
presence check. -/
def start_download_create (m : JobMap) (job_id url : String) : JobMap :=
  dictAssign m job_id (initDLRecord url)

/-! ## History (`save_history_entry`, `delete_history_item`) -/

/-- The history-entry dict built on AI-pipeline success (app.py lines
279–290). -/
structure HistoryEntry where
  id : String
  url : String
  platform : String
  video_title : String
  model : String
  lang : String
  style : String
  result : String
  word_count : Nat
  timestamp : String
deriving DecidableEq, Repr

/-- `save_history_entry(entry)` (app.py lines 96–99) acting on the
loaded history list: `history.insert(0, entry)` then persist
`history[:MAX_HISTORY_ITEMS]`. -/
def save_history_entry (entry : HistoryEntry) (history : List HistoryEntry) :
    List HistoryEntry :=
  (entry :: history).take MAX_HISTORY_ITEMS

/-- `delete_history_item(item_id)` (app.py lines 488–492) acting on the
loaded history list: keep every entry whose id differs, persist, and
return `success: True` unconditionally. -/
def delete_history_item (item_id : String) (history : List HistoryEntry) :
    List HistoryEntry × Bool :=
  (history.filter (fun h => h.id != item_id), true)

/-! ## Worker-task environments

Each background pipeline calls external collaborators (yt-dlp, the
Gemini API, the filesystem, the history file).  Their outcomes are
supplied by an environment record; a `raise` constructor carries the
exception's text (what `str(exc)` yields in the handler). -/

/-- `AVAILABLE_MODELS` (app.py lines 47–52): `(id, name, desc)`. -/
def AVAILABLE_MODELS : List (String × String × String) :=
  [("gemini-1.5-flash", "Gemini 1.5 Flash", "Fast & cost-efficient"),
   ("gemini-1.5-pro", "Gemini 1.5 Pro", "High quality, complex tasks"),
   ("gemini-2.0-flash-exp", "Gemini 2.0 Flash (Exp)", "Next-gen speed & intelligence"),
   ("gemini-pro", "Gemini 1.0 Pro", "Standard legacy model")]

/-- `valid_ids = [m["id"] for m in AVAILABLE_MODELS]` -/
def valid_ids : List String := AVAILABLE_MODELS.map Prod.fst

/-- Outcome of `ydl.extract_info(video_url, download=True)`: an
exception, or metadata whose `"title"` key may be absent. -/
inductive DlResult
  | raised (excText : String)
  | ok (title? : Option String)
deriving DecidableEq, Repr

/-- One iteration of the Gemini processing poll: `genai.get_file` either
raises or returns a file whose `state.name` is the given string. -/
inductive PollStep
  | raised (excText : String)
  | state (name : String)
deriving DecidableEq, Repr

/-- Outcome of `genai.configure` + `genai.upload_file`: an exception, or
an uploaded file with an initial `state.name` and the sequence of
subsequent poll results. -/
inductive UploadResult
  | raised (excText : String)
  | ok (initState : String) (polls : List PollStep)
deriving DecidableEq, Repr

/-- Outcome of one `model.generate_content` call. -/
inductive GenAttempt
  | raised (excText : String)
  | ok (text : String)
deriving DecidableEq, Repr

/-- Environment of one `_process_video` run.  `fileExists` is whether
the expected `.mp3` exists after the download; `sizeBytes` its size;
`historyOk` whether `save_history_entry` (file I/O) completes without
raising, `historyExcText` the exception text when it raises; `now` is
`datetime.now().isoformat()`. -/
structure AIEnv where
  dl : DlResult
  fileExists : Bool
  sizeBytes : Nat
  upload : UploadResult
  gen1 : GenAttempt
  gen2 : GenAttempt
  historyOk : Bool
  historyExcText : String
  now : String
deriving DecidableEq, Repr

/-- Result of the `while uploaded.state.name == "PROCESSING"` loop. -/
inductive PollOutcome
  | diverge
  | raised (excText : String)
  | exited (name : String)
deriving DecidableEq, Repr

/-- Run the poll loop: keep polling while the current state name is
`"PROCESSING"`; `diverge` when the environment offers no further polls
(the real loop would spin forever). -/
def runPollLoop : String → List PollStep → PollOutcome
  | name, polls =>
    if name = "PROCESSING" then
      match polls with
      | [] => .diverge
      | .raised m :: _ => .raised m
      | .state n :: rest => runPollLoop n rest
    else .exited name

/-- Observable events of a worker task, in program order. -/
inductive PEvent
  /-- a `_update_job` call with these fields -/
  | upd (u : JobUpdate)
  /-- `genai.upload_file(path=audio_path)` invoked -/
  | uploadCall
  /-- `model.generate_content` invoked on this model id -/
  | genCall (model_id : String)
  /-- `save_history_entry(entry)` completed -/
  | historyWrite (e : HistoryEntry)
  /-- `os.remove(audio_path)` attempted in the `finally` block -/
  | removeTemp
deriving DecidableEq, Repr

/-! Update literals of `_process_video` (app.py lines 171–301). -/

/-- `step="downloading", progress=10, message=...` -/
def updDownloading : JobUpdate :=
  { step := some "downloading", progress := some 10, message := some .downloadingAudio }

/-- the common error-update shape `status="error", step="failed", progress=0, error=...` -/
def errUpdate (e : JobError) : JobUpdate :=
  { status := some "error", step := some "failed", progress := some 0, error := some e }

/-- `progress=30, step="uploading", message=...` -/
def updUploading : JobUpdate :=
  { progress := some 30, step := some "uploading", message := some .uploadingAudio }

/-- `progress=50, step="processing", message=...` -/
def updProcessing : JobUpdate :=
  { progress := some 50, step := some "processing", message := some .processingAudio }

/-- `progress=70, step="generating", message=...` -/
def updGenerating : JobUpdate :=
  { progress := some 70, step := some "generating", message := some .generating }

/-- the message-only fallback notice -/
def updFallbackMsg : JobUpdate := { message := some .fallbackNotice }

/-- `status="done", step="done", progress=100, message=..., result=..., video_title=...` -/
def updDone (text title : String) : JobUpdate :=
  { status := some "done", step := some "done", progress := some 100
    message := some .doneSuccess, result := some text, video_title := some title }

/-- Arguments of `_process_video`. -/
structure GenArgs where
  job_id : String
  video_url : String
  lang : String
  style : String
  api_key : String
  model_id : String
  custom_instruction : String
deriving DecidableEq, Repr

/-- The history-entry dict of the success exit (app.py lines 279–290). -/
def mkHistoryEntry (a : GenArgs) (model_id video_title result_text now : String) :
    HistoryEntry :=
  { id := a.job_id, url := a.video_url, platform := detect_platform a.video_url
    video_title := video_title, model := model_id, lang := a.lang, style := a.style
    result := result_text, word_count := wordCount result_text, timestamp := now }

/-- Success tail of `_process_video`: the done update, then
`save_history_entry`; if the history write raises, control reaches the
`except` handler, which writes an error record over the done record. -/
def successTail (a : GenArgs) (env : AIEnv) (model_id text title : String)
    (fin : List PEvent) : List PEvent :=
  [.upd (updDone text title)] ++
  (if env.historyOk then
    [.historyWrite (mkHistoryEntry a model_id title text env.now)]
  else
    [.upd (errUpdate (.apiError (parse_api_error env.historyExcText model_id)))]) ++ fin

/-- `_process_video` (app.py lines 171–301) as the list of its
observable events.  `fin` is the `finally` block: the temp file is
removed when `audio_path` was assigned and the file exists (before the
assignment — i.e. when `extract_info` raised — nothing is removed). -/
def processVideo (a : GenArgs) (env : AIEnv) : List PEvent :=
  let fin : List PEvent := if env.fileExists then [.removeTemp] else []
  [.upd updDownloading] ++
  match env.dl with
  | .raised m =>
    -- audio_path is still None: except handler, no temp removal
    [.upd (errUpdate (.apiError (parse_api_error m a.model_id)))]
  | .ok title? =>
    let video_title := title?.getD "Untitled"
    if !env.fileExists then
      [.upd (errUpdate .couldNotDownload)] ++ fin
    else if MAX_AUDIO_SIZE_MB * 1024 * 1024 < env.sizeBytes then
      -- `size_mb = getsize/(1024*1024); size_mb > MAX_AUDIO_SIZE_MB`
      -- (division by the power of two is exact, so the float compare
      -- coincides with the byte compare)
      [.upd (errUpdate (.audioTooLarge env.sizeBytes))] ++ fin
    else
      [.upd updUploading, .uploadCall] ++
      match env.upload with
      | .raised m =>
        [.upd (errUpdate (.apiError (parse_api_error m a.model_id)))] ++ fin
      | .ok initState polls =>
        [.upd updProcessing] ++
        match runPollLoop initState polls with
        | .diverge => []   -- the thread never leaves the loop: no more events
        | .raised m =>
          [.upd (errUpdate (.apiError (parse_api_error m a.model_id)))] ++ fin
        | .exited name =>
          if name = "FAILED" then
            [.upd (errUpdate .aiProcessFailed)] ++ fin
          else
            [.upd updGenerating] ++
            let model_id :=
              if a.model_id ∈ valid_ids then a.model_id else "gemini-1.5-flash"
            [.genCall model_id] ++
            match env.gen1 with
            | .ok text => successTail a env model_id text video_title fin
            | .raised m =>
              if containsSub (pyLower m) "not found" || containsSub m "404" then
                [.upd updFallbackMsg, .genCall "gemini-pro"] ++
                match env.gen2 with
                | .ok text =>
                  -- model_id is reassigned only after the fallback succeeds
                  successTail a env "gemini-pro (fallback)" text video_title fin
                | .raised m2 =>
                  [.upd (errUpdate (.apiError (parse_api_error m2 model_id)))] ++ fin
              else
                [.upd (errUpdate (.apiError (parse_api_error m model_id)))] ++ fin

/-! ## Download pipeline (`_download_media`, app.py lines 308–379) -/

/-- Environment of one `_download_media` run: the `extract_info`
outcome, whether the expected/discovered file exists, the glob results
for the video variant, the file size, and the timestamp used in the
temp-file name. -/
structure DLEnv where
  extract : DlResult
  fileExists : Bool
  globCandidates : List String
  sizeBytes : Nat
  ts : Nat
deriving DecidableEq, Repr

/-- Arguments of `_download_media`. -/
structure DLArgs where
  job_id : String
  video_url : String
  fmt : String
deriving DecidableEq, Repr

/-- `os.path.splitext(p)[1].lstrip(".")` for ordinary file names: the
suffix after the last dot, `""` when there is no dot. -/
def extOf (p : String) : String :=
  let cs := p.toList
  if cs.contains '.' then String.mk ((cs.reverse.takeWhile (fun c => c ≠ '.')).reverse)
  else ""

/-- `\w` of the safe-filename regex (ASCII part; titles exercised here
are ASCII). -/
def isWordChar (c : Char) : Bool := c.isAlphanum || c == '_'

/-- `re.sub(r'[^\w\s\-]', '', video_title).strip()[:60] or "download"` -/
def safeTitle (t : String) : String :=
  let kept := t.toList.filter (fun c => isWordChar c || c.isWhitespace || c == '-')
  let s := pyStrip (String.mk kept)
  let s60 := String.mk (s.toList.take 60)
  if s60 = "" then "download" else s60

/-- `step="downloading", progress=20, message=f"Downloading {fmt} ..."` -/
def updDLDownloading (fmt : String) : JobUpdate :=
  { step := some "downloading", progress := some 20, message := some (.downloadingFmt fmt) }

/-- the download success update (app.py lines 368–373) -/
def updDLDone (fmt : String) (sizeBytes : Nat) (title path filename : String) : JobUpdate :=
  { status := some "done", step := some "done", progress := some 100
    message := some (.downloadReady fmt sizeBytes), video_title := some title
    download_path := some path, download_filename := some filename
    download_size_mb := some sizeBytes }

/-- `_download_media` (app.py lines 308–379) as the list of its
observable events. -/
def downloadMedia (a : DLArgs) (env : DLEnv) : List PEvent :=
  [.upd (updDLDownloading a.fmt)] ++
  match env.extract with
  | .raised m =>
    [.upd (errUpdate (.dlFail (String.mk (m.toList.take 150))))]
  | .ok title? =>
    let video_title := title?.getD "download"
    let dl_path? : Option String :=
      if a.fmt = "audio" then some ("tmp/dl_" ++ toString env.ts ++ ".mp3")
      else env.globCandidates.head?
    match dl_path? with
    | none => [.upd (errUpdate .dlPrivate)]
    | some dl_path =>
      if !env.fileExists then [.upd (errUpdate .dlPrivate)]
      else
        let ext := if a.fmt = "audio" then "mp3" else extOf dl_path
        let filename := safeTitle video_title ++ "." ++ ext
        [.upd (updDLDone a.fmt env.sizeBytes video_title dl_path filename)]

/-! ## Traces of record states

A poller holding the job id observes, under the registry lock, the
record after each prefix of the task's updates; the creation record is
the first observation. -/

/-- The partial updates of an event list. -/
def updatesOf (evs : List PEvent) : List JobUpdate :=
  evs.filterMap (fun e => match e with | .upd u => some u | _ => none)

/-- All record states a poller can observe: the initial record followed
by the result of each successive update. -/
def statesFrom (init : JobRecord) (evs : List PEvent) : List JobRecord :=
  (updatesOf evs).scanl applyUpdate init

/-- The observable record states of one AI-generation job. -/
def aiStates (a : GenArgs) (env : AIEnv) : List JobRecord :=
  statesFrom (initAIRecord a.video_url) (processVideo a env)

/-- The observable record states of one media-download job. -/
def dlStates (a : DLArgs) (env : DLEnv) : List JobRecord :=
  statesFrom (initDLRecord a.video_url) (downloadMedia a env)

/-! ## Record-level properties -/

/-- Terminal status: `done` or `error`. -/
def isTerminalB (r : JobRecord) : Bool :=
  r.status == "done" || r.status == "error"

/-- The §3 record invariants of claim C3: `progress = 100` iff
`status = "done"`; `progress = 0` whenever `status = "error"`; `error`
non-null iff `status = "error"`. -/
def invB (r : JobRecord) : Bool :=
  ((r.progress == 100) == (r.status == "done")) &&
  (!(r.status == "error") || r.progress == 0) &&
  (r.error.isSome == (r.status == "error"))

/-- Progress monotonicity while running: for every pair of observations
in order, if the later one is still `running` its progress is at least
the earlier one's. -/
def pairwiseMonoB : List JobRecord → Bool
  | [] => true
  | r :: rest =>
    rest.all (fun s => s.status != "running" || decide (r.progress ≤ s.progress)) &&
    pairwiseMonoB rest

/-- Terminal immutability: every observation after a terminal one is the
identical record. -/
def immutableB : List JobRecord → Bool
  | [] => true
  | r :: rest =>
    (!isTerminalB r || rest.all (fun s => decide (s = r))) && immutableB rest

/-- The history entries actually persisted during a run. -/
def historyWritesOf (evs : List PEvent) : List HistoryEntry :=
  evs.filterMap (fun e => match e with | .historyWrite h => some h | _ => none)

/-! ## Concrete instances used by counterexamples and witnesses -/

/-- Arguments of end-to-end scenario A (spec §8). -/
def scenArgs : GenArgs :=
  { job_id := "c8000001", video_url := "https://youtube.com/watch?v=abc"
    lang := "English", style := "Summary", api_key := "key"
    model_id := "gemini-1.5-flash", custom_instruction := "" }

/-- Environment of scenario A: a 2 MB audio file, a successful upload
that is immediately `ACTIVE`, generated text `"## Summary\n- point one"`,
and a successful history write. -/
def scenEnv : AIEnv :=
  { dl := .ok (some "Title"), fileExists := true, sizeBytes := 2 * 1024 * 1024
    upload := .ok "ACTIVE" [], gen1 := .ok "## Summary\n- point one"
    gen2 := .ok "", historyOk := true, historyExcText := ""
    now := "2026-01-01T00:00:00" }

/-- The same run except that `save_history_entry` raises (its file write
is unguarded I/O), so the `except` handler fires after the done update. -/
def scenEnvHistFail : AIEnv :=
  { scenEnv with historyOk := false, historyExcText := "disk full" }

/-- A concrete download job. -/
def dlArgsA : DLArgs :=
  { job_id := "d8000001", video_url := "https://youtu.be/x", fmt := "audio" }

/-- Its environment: the file is produced, 5 000 000 bytes. -/
def dlEnvA : DLEnv :=
  { extract := .ok (some "My Vid"), fileExists := true, globCandidates := []
    sizeBytes := 5000000, ts := 7 }

/-- An already-present, finished job record (for the collision claim). -/
def oldRecord : JobRecord :=
  { status := "done", step := "done", progress := 100, message := .doneSuccess
    result := some "old result", error := none, video_title := some "Old"
    url := "https://youtu.be/old", platform := "youtube" }

/-- The colliding 8-hex job id. -/
def collidingId : String := "ab12cd34"

/-- A registry already containing `collidingId`. -/
def mapWithOld : JobMap :=
  fun k => if k = collidingId then some oldRecord else none

/-- A concrete history entry (for the delete witness). -/
def entryA : HistoryEntry :=
  { id := "h1", url := "https://youtu.be/a", platform := "youtube"
    video_title := "t", model := "gemini-1.5-flash", lang := "English"
    style := "Summary", result := "r", word_count := 1
    timestamp := "2026-01-01T00:00:00" }

/-! ## Helper lemmas: exhaustive runs of both pipelines -/

set_option maxHeartbeats 2000000 in
theorem aiStates_all_inv (a : GenArgs) (e : AIEnv) :
    (aiStates a e).all invB = true := by
  obtain ⟨dl, fe, sz, up, g1, g2, hok, hmsg, now⟩ := e
  cases dl <;> cases fe <;> cases up <;> cases g1 <;> cases g2 <;> cases hok <;>
    simp only [aiStates, statesFrom, processVideo] <;>
    (repeat' split) <;> rfl

set_option maxHeartbeats 2000000 in
theorem dlStates_all_inv (a : DLArgs) (e : DLEnv) :
    (dlStates a e).all invB = true := by
  obtain ⟨ex, fe, glob, sz, ts⟩ := e
  cases ex <;> cases fe <;> cases glob <;>
    simp only [dlStates, statesFrom, downloadMedia] <;>
    (repeat' split) <;> rfl

set_option maxHeartbeats 2000000 in
theorem aiStates_mono (a : GenArgs) (e : AIEnv) :
    pairwiseMonoB (aiStates a e) = true := by
  obtain ⟨dl, fe, sz, up, g1, g2, hok, hmsg, now⟩ := e
  cases dl <;> cases fe <;> cases up <;> cases g1 <;> cases g2 <;> cases hok <;>
    simp only [aiStates, statesFrom, processVideo] <;>
    (repeat' split) <;> rfl

set_option maxHeartbeats 2000000 in
theorem dlStates_mono (a : DLArgs) (e : DLEnv) :
    pairwiseMonoB (dlStates a e) = true := by
  obtain ⟨ex, fe, glob, sz, ts⟩ := e
  cases ex <;> cases fe <;> cases glob <;>
    simp only [dlStates, statesFrom, downloadMedia] <;>
    (repeat' split) <;> rfl

set_option maxHeartbeats 2000000 in
theorem aiStates_immutable_of_historyOk (a : GenArgs) (e : AIEnv)
    (h : e.historyOk = true) : immutableB (aiStates a e) = true := by
  obtain ⟨dl, fe, sz, up, g1, g2, hok, hmsg, now⟩ := e
  subst h
  cases dl <;> cases fe <;> cases up <;> cases g1 <;> cases g2 <;>
    simp only [aiStates, statesFrom, processVideo] <;>
    (repeat' split) <;> rfl

set_option maxHeartbeats 2000000 in
theorem dlStates_immutable (a : DLArgs) (e : DLEnv) :
    immutableB (dlStates a e) = true := by
  obtain ⟨ex, fe, glob, sz, ts⟩ := e
  cases ex <;> cases fe <;> cases glob <;>
    simp only [dlStates, statesFrom, downloadMedia] <;>
    (repeat' split) <;> rfl

/-- Auxiliary: the source's for-loop over the domain list equals the
first-match formulation. -/
theorem findPlatform_eq_find? (l : List (String × String)) (u : String) :
    findPlatform l u =
      (match l.find? (fun p => containsSub u p.1) with
       | some p => p.2
       | none => "other") := by
  induction l with
  | nil => rfl
  | cons hd tl ih =>
    obtain ⟨d, n⟩ := hd
    by_cases h : containsSub u d
    · simp [findPlatform, List.find?, h]
    · simp [findPlatform, List.find?, h, ih]

/-! ## Claim theorems -/

/-- Claim C1, counterexample: the claim that a terminal record never
changes is false on the code.  In a run where the pipeline succeeds but
`save_history_entry` raises (it performs unguarded file I/O), the
`except` handler calls `_update_job` — which has no terminal-state
guard — and overwrites the `done` record with an `error` record, so a
later poll differs from an earlier terminal poll. -/
theorem terminal_record_overwritten_after_history_failure :
    immutableB (aiStates scenArgs scenEnvHistFail) = false := by rfl

/-- Claim C1, amended: once a job record is terminal no later update
changes it, in every run of the download pipeline, and in every run of
the AI pipeline in which the history write after the success update does
not raise (when it raises, the exception handler overwrites the `done`
record). -/
theorem terminal_immutability_unless_history_write_fails
    (aa : GenArgs) (ae : AIEnv) (da : DLArgs) (de : DLEnv)
    (h : ae.historyOk = true) :
    (immutableB (aiStates aa ae) && immutableB (dlStates da de)) = true := by
  rw [aiStates_immutable_of_historyOk aa ae h, dlStates_immutable]
  rfl

/-- Witness for the amended C1 theorem at a concrete successful run. -/
theorem terminal_immutability_unless_history_write_fails_witness :
    (immutableB (aiStates scenArgs scenEnv) && immutableB (dlStates dlArgsA dlEnvA)) = true :=
  terminal_immutability_unless_history_write_fails scenArgs scenEnv dlArgsA dlEnvA rfl

/-- Claim C2 (code bug): when the freshly drawn 8-hex job id is already
present, both submission routes run `_jobs[job_id] = {...}` with no
presence check: the existing record (here a finished `done` record) is
silently replaced by the fresh `running` record and the submission
succeeds, contradicting the spec's create-fails-if-present contract. -/
theorem job_creation_silently_overwrites_on_collision :
    (generate_create mapWithOld collidingId "https://youtube.com/watch?v=new") collidingId
      = some (initAIRecord "https://youtube.com/watch?v=new")
    ∧ (start_download_create mapWithOld collidingId "https://youtube.com/watch?v=new") collidingId
      = some (initDLRecord "https://youtube.com/watch?v=new")
    ∧ decide (initAIRecord "https://youtube.com/watch?v=new" = oldRecord) = false
    ∧ decide (initDLRecord "https://youtube.com/watch?v=new" = oldRecord) = false :=
  ⟨rfl, rfl, rfl, rfl⟩

/-- Claim C3: in every run of both pipelines, every observable record —
the creation record and the record after each worker update — satisfies
the §3 invariants: `progress = 100` iff `status = done`, `progress = 0`
whenever `status = error`, and `error` non-null iff `status = error`. -/
theorem job_record_invariants (aa : GenArgs) (ae : AIEnv) (da : DLArgs) (de : DLEnv) :
    ((aiStates aa ae).all invB && (dlStates da de).all invB) = true := by
  rw [aiStates_all_inv, dlStates_all_inv]
  rfl

/-- Claim C4: in every run of both pipelines, the progress values of
records observed while `status = running` are monotonically
non-decreasing: no observation that is still running shows a progress
lower than any earlier observation. -/
theorem progress_monotone_while_running
    (aa : GenArgs) (ae : AIEnv) (da : DLArgs) (de : DLEnv) :
    (pairwiseMonoB (aiStates aa ae) && pairwiseMonoB (dlStates da de)) = true := by
  rw [aiStates_mono, dlStates_mono]
  rfl

/-- Claim C5: in every AI run whose audio file exists and exceeds the
20 MB cap, the final record is `error` with progress 0 and the
size-specific message, `genai.upload_file` is never invoked, and no
observable record ever has step `uploading`. -/
theorem oversize_audio_fails_before_upload
    (a : GenArgs) (e : AIEnv) (t? : Option String)
    (hdl : e.dl = .ok t?) (hex : e.fileExists = true)
    (hsz : MAX_AUDIO_SIZE_MB * 1024 * 1024 < e.sizeBytes) :
    (aiStates a e).getLast?.map (fun r => (r.status, r.progress, r.error))
      = some ("error", 0, some (.audioTooLarge e.sizeBytes))
    ∧ (processVideo a e).all (fun ev => decide (ev ≠ .uploadCall)) = true
    ∧ (aiStates a e).all (fun r => r.step != "uploading") = true := by
  obtain ⟨dl, fe, sz, up, g1, g2, hok, hmsg, now⟩ := e
  simp only at hdl hex hsz
  subst hdl hex
  refine ⟨?_, ?_, ?_⟩ <;>
    simp [aiStates, statesFrom, processVideo, hsz, updatesOf, applyUpdate,
      initAIRecord, updDownloading, errUpdate]

/-- Witness for C5 at a 30 MB audio file. -/
theorem oversize_audio_fails_before_upload_witness :
    (aiStates scenArgs { scenEnv with sizeBytes := 30 * 1024 * 1024 }).getLast?.map
        (fun r => (r.status, r.progress, r.error))
      = some ("error", 0, some (.audioTooLarge (30 * 1024 * 1024)))
    ∧ (processVideo scenArgs { scenEnv with sizeBytes := 30 * 1024 * 1024 }).all
        (fun ev => decide (ev ≠ .uploadCall)) = true
    ∧ (aiStates scenArgs { scenEnv with sizeBytes := 30 * 1024 * 1024 }).all
        (fun r => r.step != "uploading") = true :=
  oversize_audio_fails_before_upload scenArgs _ (some "Title") rfl rfl (by decide)

/-- Claim C6: the error classifier is a pure function of the raw failure
text and the model id and coincides, on every input, with the
specification's ordered first-match rule list — quota/429, then auth,
then permission, then not-found (naming the model), then safety, and
otherwise the raw text truncated to at most 200 characters. -/
theorem parse_api_error_matches_spec (t m : String) :
    parse_api_error t m = specErrorClassifier t m := by
  unfold parse_api_error specErrorClassifier
  split_ifs with h1 h2 h3 h4 h5 h6
  all_goals try rfl
  obtain ⟨l⟩ := t
  have hle : l.length ≤ 200 := Nat.le_of_not_lt (by simpa [String.length] using h6)
  show String.mk l = String.mk (l.take 200)
  rw [List.take_of_length_le hle]

/-- Claim C7: a history write stores at most `MAX_HISTORY_ITEMS` (50)
entries, whatever was stored before, and the newly appended entry is
always first. -/
theorem history_capped_and_newest_first
    (entry : HistoryEntry) (prior : List HistoryEntry) :
    (save_history_entry entry prior).length ≤ MAX_HISTORY_ITEMS
    ∧ (save_history_entry entry prior).head? = some entry := by
  constructor
  · exact List.length_take_le MAX_HISTORY_ITEMS (entry :: prior)
  · show ((entry :: prior).take 50).head? = some entry
    rw [show (50 : Nat) = 49 + 1 from rfl, List.take_succ_cons]
    rfl

/-- Claim C8, counterexample: in end-to-end scenario A the generated
text `"## Summary\n- point one"` has five whitespace tokens, so the
recorded `word_count` is 5; the claim's expected value 4 is wrong. -/
theorem scenario_word_count_is_five_not_four :
    (historyWritesOf (processVideo scenArgs scenEnv)).map (fun e => e.word_count) = [5]
    ∧ decide ((historyWritesOf (processVideo scenArgs scenEnv)).map
        (fun e => e.word_count) = [4]) = false :=
  ⟨by decide, by decide⟩

/-- Claim C8, amended: scenario A reaches `done` with the generated text
as `result`, the downloaded title recorded, and appends one history
entry with `platform = "youtube"` and `word_count = 5` (the
whitespace-token count of the text). -/
theorem scenario_a_reaches_done_with_word_count_five :
    (aiStates scenArgs scenEnv).getLast?.map
        (fun r => (r.status, r.progress, r.result, r.video_title))
      = some ("done", 100, some "## Summary\n- point one", some "Title")
    ∧ (historyWritesOf (processVideo scenArgs scenEnv)).map
        (fun e => (e.platform, e.word_count, e.result))
      = [("youtube", 5, "## Summary\n- point one")]
    ∧ wordCount "## Summary\n- point one" = 5 :=
  ⟨by decide, by decide, by decide⟩

/-- Claim C9: platform detection returns the name paired with the first
entry of the fixed ordered domain list whose domain occurs as a
substring of the lowercased URL, `"other"` when none occurs; hence
`https://box.com/a`, which contains `"x.com"` inside `"box.com"`, is
detected as `"twitter"`, not `"other"`. -/
theorem platform_detection_first_substring_match :
    (∀ url, detect_platform url = detectPlatformSpec url)
    ∧ detect_platform "https://box.com/a" = "twitter" := by
  refine ⟨fun url => ?_, by decide⟩
  unfold detect_platform detectPlatformSpec
  exact findPlatform_eq_find? PLATFORM_DOMAINS (pyLower url)

/-- Claim C10: deleting a history entry by id removes exactly the
entries with that id: no remaining entry carries the id, the result is a
subsequence of the original (all other entries kept in their original
order), the operation is idempotent, it always reports success, and
when no entry has the id the history is unchanged. -/
theorem delete_history_removes_exactly_matching
    (item_id : String) (history : List HistoryEntry) :
    ((delete_history_item item_id history).1.all (fun e => e.id != item_id) = true)
    ∧ List.Sublist (delete_history_item item_id history).1 history
    ∧ (history.all (fun e =>
        (e.id == item_id) || decide (e ∈ (delete_history_item item_id history).1)) = true)
    ∧ (delete_history_item item_id ((delete_history_item item_id history).1)).1
        = (delete_history_item item_id history).1
    ∧ (delete_history_item item_id history).2 = true
    ∧ (history.all (fun e => e.id != item_id) = true →
        (delete_history_item item_id history).1 = history) := by
  refine ⟨?_, ?_, ?_, ?_, rfl, ?_⟩
  · rw [List.all_eq_true]
    intro e he
    exact (List.mem_filter.mp he).2
  · exact List.filter_sublist history
  · rw [List.all_eq_true]
    intro e he
    by_cases h : e.id = item_id
    · simp [h]
    · simp only [Bool.or_eq_true, decide_eq_true_eq]
      right
      exact List.mem_filter.mpr ⟨he, by simpa using h⟩
  · apply List.filter_eq_self.mpr
    intro e he
    exact (List.mem_filter.mp he).2
  · intro hall
    apply List.filter_eq_self.mpr
    rw [List.all_eq_true] at hall
    exact hall

/-- Witness for C10 at a concrete one-entry history and an absent id. -/
theorem delete_history_removes_exactly_matching_witness :
    (delete_history_item "zz" [entryA]).1 = [entryA] :=
  (delete_history_removes_exactly_matching "zz" [entryA]).2.2.2.2.2 rfl

end VidAI
